import Mathlib

/-!
Verification of the shop_endpoint_demo HTTP backend (src/src/main.rs).

The store is modelled as explicit state: the contents of the `products` and
`sales` tables together with the AUTOINCREMENT counters.  Each handler of
`main.rs` becomes a pure function from the request payload and the current
state to an HTTP response and the next state.  A `sqlx` call can fail at
runtime for reasons outside the program (connectivity, locked file, ...);
each such call site therefore takes a Boolean oracle saying whether that
store call fails, mirroring the `Result` the Rust code matches on.
The `f64` field `price` is modelled as a rational number: the code never
computes with it, it only stores and returns it.
-/

namespace ShopEndpoint

/-- Row of the `products` table (`struct Product` in main.rs). -/
structure Product where
  id : Int
  name : String
  price : Rat
  in_stock : Bool
deriving DecidableEq

/-- Row of the `sales` table (`struct Sale` in main.rs). -/
structure Sale where
  id : Int
  product_id : Int
  discount : Int
  start_date : String
  end_date : String
deriving DecidableEq

/-- Payload of POST /add-product (`struct AddProduct`). -/
structure AddProduct where
  name : String
  price : Rat
  in_stock : Bool
deriving DecidableEq

/-- Payload of POST /add-sale (`struct AddSale`). -/
structure AddSale where
  product_id : Int
  discount : Int
  start_date : String
  end_date : String
deriving DecidableEq

/-- State of the SQLite store: both tables and their AUTOINCREMENT counters. -/
structure DB where
  products : List Product
  sales : List Sale
  next_product_id : Int
  next_sale_id : Int
deriving DecidableEq

/-- Body of an HTTP response: a plain-text message (`.body("...")`), a JSON
array of rows (`.json(...)`), or nothing (`.finish()`). -/
inductive Body where
  | text (s : String)
  | jsonProducts (ps : List Product)
  | jsonSales (ss : List Sale)
  | empty
deriving DecidableEq

/-- An HTTP response: status code and body. -/
structure HttpResponse where
  status : Nat
  body : Body
deriving DecidableEq

/-- Handler of GET /products: `SELECT * FROM products`, 200 with the full
row set on success, 500 with an empty body (`finish()`) on store error. -/
def get_products (db : DB) (fetchErr : Bool) : HttpResponse :=
  if fetchErr then ⟨500, .empty⟩
  else ⟨200, .jsonProducts db.products⟩

/-- Handler of GET /sales: `SELECT * FROM sales`, 200 with the full row set
on success, 500 with an empty body on store error. -/
def get_sales (db : DB) (fetchErr : Bool) : HttpResponse :=
  if fetchErr then ⟨500, .empty⟩
  else ⟨200, .jsonSales db.sales⟩

/-- Effect on the store of
`INSERT INTO products (name, price, in_stock) VALUES (?, ?, ?)`:
the store assigns the next AUTOINCREMENT id and appends the row. -/
def insert_product (db : DB) (p : AddProduct) : DB :=
  { db with
    products := db.products ++ [⟨db.next_product_id, p.name, p.price, p.in_stock⟩],
    next_product_id := db.next_product_id + 1 }

/-- Handler of POST /add-product: insert the row, no validation of the
payload; 200 with a confirmation on success, 500 with empty body on error. -/
def add_product (db : DB) (p : AddProduct) (insertErr : Bool) : HttpResponse × DB :=
  if insertErr then (⟨500, .empty⟩, db)
  else (⟨200, .text "Product added successfully"⟩, insert_product db p)

/-- The existence query of add_sale:
`SELECT id FROM products WHERE id = ?` with `fetch_optional`. -/
def product_with_id (db : DB) (pid : Int) : Option Product :=
  db.products.find? (fun p => p.id == pid)

/-- Effect on the store of
`INSERT INTO sales (product_id, discount, start_date, end_date) VALUES (?, ?, ?, ?)`. -/
def insert_sale (db : DB) (s : AddSale) : DB :=
  { db with
    sales := db.sales ++
      [⟨db.next_sale_id, s.product_id, s.discount, s.start_date, s.end_date⟩],
    next_sale_id := db.next_sale_id + 1 }

/-- Handler of POST /add-sale: first query whether the product exists
(`checkErr` = that query fails), then insert (`insertErr` = the insert
fails), with the three-way match of main.rs lines 122-147. -/
def add_sale (db : DB) (s : AddSale) (checkErr insertErr : Bool) : HttpResponse × DB :=
  if checkErr then (⟨500, .text "Error checking product existence"⟩, db)
  else
    match product_with_id db s.product_id with
    | some _ =>
        if insertErr then (⟨500, .text "Error adding sale"⟩, db)
        else (⟨200, .text "Sale added successfully"⟩, insert_sale db s)
    | none => (⟨400, .text "Product does not exist"⟩, db)

/-- Handler of DELETE /delete-product/\x7bid\x7d:
`DELETE FROM products WHERE id = ?`, unconditional success response. -/
def delete_product (db : DB) (id : Int) (execErr : Bool) : HttpResponse × DB :=
  if execErr then (⟨500, .empty⟩, db)
  else (⟨200, .text "Product deleted successfully"⟩,
    { db with products := db.products.filter (fun p => !(p.id == id)) })

/-- Handler of DELETE /delete-sale/\x7bid\x7d:
`DELETE FROM sales WHERE id = ?`, unconditional success response. -/
def delete_sale (db : DB) (id : Int) (execErr : Bool) : HttpResponse × DB :=
  if execErr then (⟨500, .empty⟩, db)
  else (⟨200, .text "Sale deleted successfully"⟩,
    { db with sales := db.sales.filter (fun s => !(s.id == id)) })

/-- A foreign-key clause of a CREATE TABLE statement. -/
structure ForeignKey where
  column : String
  ref_table : String
  ref_column : String
deriving DecidableEq

/-- A table of the schema: its name, columns, and foreign keys. -/
structure TableDef where
  name : String
  columns : List String
  foreign_keys : List ForeignKey
deriving DecidableEq

/-- The `products` table created by init_db (main.rs lines 29-34). -/
def productsTable : TableDef :=
  ⟨"products", ["id", "name", "price", "in_stock"], []⟩

/-- The `sales` table created by init_db (main.rs lines 35-42),
with the foreign key from product_id to products.id. -/
def salesTable : TableDef :=
  ⟨"sales", ["id", "product_id", "discount", "start_date", "end_date"],
    [⟨"product_id", "products", "id"⟩]⟩

/-- `CREATE TABLE IF NOT EXISTS`: adds the table unless one of that name
already exists. -/
def create_table_if_not_exists (schema : List TableDef) (t : TableDef) : List TableDef :=
  if schema.any (fun u => u.name == t.name) then schema else schema ++ [t]

/-- `init_db`: executes the two CREATE TABLE IF NOT EXISTS statements;
`execErr` = the execution fails, in which case the error propagates (`?`). -/
def init_db (schema : List TableDef) (execErr : Bool) : Except Unit (List TableDef) :=
  if execErr then .error ()
  else .ok (create_table_if_not_exists
      (create_table_if_not_exists schema productsTable) salesTable)

/-- Startup step of `main` (main.rs line 186): `init_db(&pool).await.expect(...)`.
`.error` models the process aborting. -/
def startup (schema : List TableDef) (initErr : Bool) : Except Unit (List TableDef) :=
  init_db schema initErr

/-- Concrete store holding one product, id 1, as in the spec scenario. -/
def dbWidget : DB :=
  ⟨[⟨1, "Widget", 9.99, true⟩], [], 2, 1⟩

/-- Empty, freshly initialized store. -/
def emptyDB : DB := ⟨[], [], 1, 1⟩

/-- Concrete sale payload referencing product 1. -/
def saleReq : AddSale := ⟨1, 10, "2024-01-01", "2024-01-31"⟩

/-- Concrete sale payload referencing the absent product 999. -/
def saleReq999 : AddSale := ⟨999, 10, "2024-01-01", "2024-01-31"⟩

/-- Concrete product payload of the spec scenario. -/
def prodReq : AddProduct := ⟨"Widget", 9.99, true⟩

/-- After create_table_if_not_exists, a table of that name is present. -/
theorem create_table_mem (s : List TableDef) (t : TableDef) :
    (create_table_if_not_exists s t).any (fun u => u.name == t.name) = true := by
  unfold create_table_if_not_exists
  split
  · assumption
  · simp [List.any_append]

/-- create_table_if_not_exists preserves any table name already present. -/
theorem create_table_mono (s : List TableDef) (t : TableDef) (f : TableDef → Bool)
    (h : s.any f = true) : (create_table_if_not_exists s t).any f = true := by
  unfold create_table_if_not_exists
  split
  · exact h
  · simp [List.any_append, h]

/-- create_table_if_not_exists is the identity when the name is present. -/
theorem create_table_absorb (s : List TableDef) (t : TableDef)
    (h : s.any (fun u => u.name == t.name) = true) :
    create_table_if_not_exists s t = s := by
  unfold create_table_if_not_exists
  simp [h]

/-- Claim C3: on startup init_db ensures the products and sales tables
exist with the columns of the data model, including the foreign key from
sales.product_id to products.id; it is idempotent (running it on an
already-initialized schema returns that schema unchanged); and any
execution error propagates so that startup aborts. -/
theorem init_db_spec :
    init_db [] false = .ok [productsTable, salesTable] ∧
    productsTable.columns = ["id", "name", "price", "in_stock"] ∧
    salesTable.columns = ["id", "product_id", "discount", "start_date", "end_date"] ∧
    salesTable.foreign_keys = [⟨"product_id", "products", "id"⟩] ∧
    (∀ s t, init_db s false = .ok t → init_db t false = .ok t) ∧
    (∀ s, init_db s true = .error ()) ∧
    (∀ s, startup s true = .error ()) := by
  refine ⟨rfl, rfl, rfl, rfl, ?_, fun s => rfl, fun s => rfl⟩
  intro s t ht
  have ht' : t = create_table_if_not_exists
      (create_table_if_not_exists s productsTable) salesTable := by
    simpa [init_db] using ht.symm
  have hp : t.any (fun u => u.name == productsTable.name) = true := by
    rw [ht']
    exact create_table_mono _ _ _ (create_table_mem s productsTable)
  have hs : t.any (fun u => u.name == salesTable.name) = true := by
    rw [ht']
    exact create_table_mem _ salesTable
  simp [init_db, create_table_absorb _ _ hp,
    create_table_absorb _ _ hs]

/-- Witness for C3 at concrete schemas: a fresh run creates both tables,
and a second run on the result returns it unchanged. -/
theorem init_db_spec_witness :
    init_db [] false = .ok [productsTable, salesTable] ∧
    init_db [productsTable, salesTable] false = .ok [productsTable, salesTable] :=
  ⟨init_db_spec.1,
    init_db_spec.2.2.2.2.1 [] [productsTable, salesTable] (by rfl)⟩

/-- Claim C1: a POST /add-sale whose product_id matches no product row
gets a 400 response with body "Product does not exist" and leaves the
store (in particular the sales table) unchanged, whatever the insert
oracle would have said. -/
theorem add_sale_missing_product (db : DB) (s : AddSale) (insertErr : Bool)
    (h : ∀ p ∈ db.products, p.id ≠ s.product_id) :
    add_sale db s false insertErr = (⟨400, .text "Product does not exist"⟩, db) := by
  have hfind : product_with_id db s.product_id = none := by
    unfold product_with_id
    rw [List.find?_eq_none]
    intro p hp
    simpa using h p hp
  simp [add_sale, hfind]

/-- Witness for C1: the spec scenario, product_id 999 absent from a store
holding only product 1. -/
theorem add_sale_missing_product_witness :
    (∀ p ∈ dbWidget.products, p.id ≠ saleReq999.product_id) ∧
    add_sale dbWidget saleReq999 false false =
      (⟨400, .text "Product does not exist"⟩, dbWidget) :=
  ⟨by decide, add_sale_missing_product dbWidget saleReq999 false (by decide)⟩

/-- Claim C2: a POST /add-sale whose product_id matches an existing
product row and whose insert succeeds returns 200 with body
"Sale added successfully", the store becomes insert_sale db s, the created
record (with the submitted product_id, discount and dates) is in the sales
table, and a subsequent GET /sales lists that table. -/
theorem add_sale_existing_product (db : DB) (s : AddSale) (p : Product)
    (hp : p ∈ db.products) (hid : p.id = s.product_id) :
    add_sale db s false false =
      (⟨200, .text "Sale added successfully"⟩, insert_sale db s) ∧
    (⟨db.next_sale_id, s.product_id, s.discount, s.start_date, s.end_date⟩ : Sale)
      ∈ (insert_sale db s).sales ∧
    get_sales (insert_sale db s) false =
      ⟨200, .jsonSales (insert_sale db s).sales⟩ := by
  have hsome : (product_with_id db s.product_id).isSome := by
    unfold product_with_id
    rw [List.find?_isSome]
    exact ⟨p, hp, by simp [hid]⟩
  refine ⟨?_, ?_, rfl⟩
  · cases hfind : product_with_id db s.product_id with
    | none => rw [hfind] at hsome; simp at hsome
    | some q => simp [add_sale, hfind]
  · simp [insert_sale]

/-- Witness for C2: adding a sale for the existing product 1. -/
theorem add_sale_existing_product_witness :
    add_sale dbWidget saleReq false false =
      (⟨200, .text "Sale added successfully"⟩, insert_sale dbWidget saleReq) ∧
    (⟨dbWidget.next_sale_id, saleReq.product_id, saleReq.discount,
        saleReq.start_date, saleReq.end_date⟩ : Sale)
      ∈ (insert_sale dbWidget saleReq).sales ∧
    get_sales (insert_sale dbWidget saleReq) false =
      ⟨200, .jsonSales (insert_sale dbWidget saleReq).sales⟩ :=
  add_sale_existing_product dbWidget saleReq ⟨1, "Widget", 9.99, true⟩
    (by simp [dbWidget]) (by decide)

/-- Claim C6: a POST /add-sale whose product_id matches an existing
product but whose insert fails returns 500 with the fixed body
"Error adding sale" and leaves the store (so the sales table) unchanged. -/
theorem add_sale_insert_failure (db : DB) (s : AddSale) (p : Product)
    (hp : p ∈ db.products) (hid : p.id = s.product_id) :
    add_sale db s false true = (⟨500, .text "Error adding sale"⟩, db) := by
  have hsome : (product_with_id db s.product_id).isSome := by
    unfold product_with_id
    rw [List.find?_isSome]
    exact ⟨p, hp, by simp [hid]⟩
  cases hfind : product_with_id db s.product_id with
  | none => rw [hfind] at hsome; simp at hsome
  | some q => simp [add_sale, hfind]

/-- Witness for C6: insert failure for the existing product 1. -/
theorem add_sale_insert_failure_witness :
    add_sale dbWidget saleReq false true =
      (⟨500, .text "Error adding sale"⟩, dbWidget) :=
  add_sale_insert_failure dbWidget saleReq ⟨1, "Widget", 9.99, true⟩
    (by simp [dbWidget]) (by decide)

/-- Claim C10: if the pre-insert existence query of POST /add-sale itself
fails, the handler returns 500 with the fixed body
"Error checking product existence" and the store (so the sales table) is
unchanged, whatever the insert oracle would have said: the insert is never
attempted. -/
theorem add_sale_check_failure (db : DB) (s : AddSale) (insertErr : Bool) :
    add_sale db s true insertErr =
      (⟨500, .text "Error checking product existence"⟩, db) := by
  simp [add_sale]

/-- Claim C4: round-trip — POST /add-product followed by GET /products
yields a list containing a record whose name, price and in_stock equal the
submitted values unmodified, with the newly assigned identifier, which is
distinct from every pre-existing product id. -/
theorem add_product_round_trip (db : DB) (p : AddProduct)
    (hwf : ∀ q ∈ db.products, q.id < db.next_product_id) :
    add_product db p false =
      (⟨200, .text "Product added successfully"⟩, insert_product db p) ∧
    (⟨db.next_product_id, p.name, p.price, p.in_stock⟩ : Product)
      ∈ (insert_product db p).products ∧
    get_products (insert_product db p) false =
      ⟨200, .jsonProducts (insert_product db p).products⟩ ∧
    (∀ q ∈ db.products, q.id ≠ db.next_product_id) := by
  refine ⟨rfl, by simp [insert_product], rfl, ?_⟩
  intro q hq
  exact ne_of_lt (hwf q hq)

/-- Witness for C4: the spec scenario, Widget at 9.99 into the fresh store. -/
theorem add_product_round_trip_witness :
    add_product emptyDB prodReq false =
      (⟨200, .text "Product added successfully"⟩, insert_product emptyDB prodReq) ∧
    (⟨emptyDB.next_product_id, prodReq.name, prodReq.price, prodReq.in_stock⟩ : Product)
      ∈ (insert_product emptyDB prodReq).products ∧
    get_products (insert_product emptyDB prodReq) false =
      ⟨200, .jsonProducts (insert_product emptyDB prodReq).products⟩ ∧
    (∀ q ∈ emptyDB.products, q.id ≠ emptyDB.next_product_id) :=
  add_product_round_trip emptyDB prodReq (by decide)

/-- Claim C7: POST /add-product validates nothing — for every payload,
any name (empty included) and any price (negative included), success
inserts the row with the next id and answers 200
"Product added successfully", and store failure answers 500 with no body. -/
theorem add_product_no_validation (db : DB) (p : AddProduct) :
    add_product db p false =
      (⟨200, .text "Product added successfully"⟩,
        { db with
          products := db.products ++
            [⟨db.next_product_id, p.name, p.price, p.in_stock⟩],
          next_product_id := db.next_product_id + 1 }) ∧
    add_product db p true = (⟨500, .empty⟩, db) := by
  exact ⟨rfl, rfl⟩

/-- Claim C8: GET /products and GET /sales select the whole table — on
success 200 with the full row set as the JSON array, on store failure 500
with no body detail. -/
theorem list_endpoints_spec (db : DB) :
    get_products db false = ⟨200, .jsonProducts db.products⟩ ∧
    get_sales db false = ⟨200, .jsonSales db.sales⟩ ∧
    get_products db true = ⟨500, .empty⟩ ∧
    get_sales db true = ⟨500, .empty⟩ :=
  ⟨rfl, rfl, rfl, rfl⟩

/-- Claim C5: for every id, both delete handlers answer 200 with their
confirmation body whenever the statement executes without a store error —
in particular also when no row matches the id — and a store error yields a
500 response with no body. -/
theorem delete_handlers_spec (db : DB) (id : Int) :
    (delete_product db id false).1 =
      ⟨200, .text "Product deleted successfully"⟩ ∧
    (delete_sale db id false).1 =
      ⟨200, .text "Sale deleted successfully"⟩ ∧
    (delete_product db id true).1 = ⟨500, .empty⟩ ∧
    (delete_sale db id true).1 = ⟨500, .empty⟩ :=
  ⟨rfl, rfl, rfl, rfl⟩

/-- Claim C9: DELETE /delete-product only touches the products table —
for every id and oracle outcome the sales table (and its counter) is
unchanged, dependent sale rows are not deleted, and they do not block the
deletion: without a store error the response is 200 regardless of the
sales present. -/
theorem delete_product_frame (db : DB) (id : Int) (execErr : Bool) :
    ((delete_product db id execErr).2).sales = db.sales ∧
    ((delete_product db id execErr).2).next_sale_id = db.next_sale_id ∧
    (delete_product db id false).1.status = 200 := by
  unfold delete_product
  cases execErr <;> simp

end ShopEndpoint
